import Mathlib

/-!
Shallow embedding of the two hubot command plugins (explain.js and the meet
script) and proofs about them.

JavaScript strings are modelled as Lean `String`s; the handful of string
operations the scripts use (trim, toLowerCase, split(","), replace, slice)
are implemented below on the underlying `List Char`, mirroring the JS
semantics character by character.  `Math.random()` is modelled by passing
the drawn index (for why-mode) as an explicit parameter, together with a
separate function `whyDraw` embedding `Math.floor(Math.random() * (rows.length + 1))`
over an abstract rational in `[0, 1)`.  Fallible lookups (the unhandled
dereference in why-mode) are modelled with `Option`.
-/

namespace WebteamHubot

/-- JS `String.prototype.trim`: drop whitespace from both ends. -/
def trimChars (l : List Char) : List Char :=
  ((l.dropWhile Char.isWhitespace).reverse.dropWhile Char.isWhitespace).reverse

/-- JS `trim` lifted to `String`. -/
def jsTrim (s : String) : String := String.mk (trimChars s.data)

/-- JS `toLowerCase` / `toLocaleLowerCase` on the character list. -/
def lowerChars (l : List Char) : List Char := l.map Char.toLower

/-- JS `toLowerCase` lifted to `String`. -/
def jsToLower (s : String) : String := String.mk (lowerChars s.data)

/-- The query normalization used throughout explain.js:
`q.toLowerCase().trim()` (also `q.toLocaleLowerCase().trim()`). -/
def normalize (s : String) : String := String.mk (trimChars (lowerChars s.data))

/-- JS `String.prototype.split(",")` on the character list: `"".split(",")`
is `[""]`, separators are not kept, empty fields are kept. -/
def splitComma : List Char → List (List Char)
  | [] => [[]]
  | c :: rest =>
    if c = ',' then [] :: splitComma rest
    else
      match splitComma rest with
      | [] => [[c]]
      | t :: ts => (c :: t) :: ts

/-- A data row of the `Explain` sheet.  Fields the script reads; a column
missing in the sheet is the empty string (explain.js defaults `row.Explain`
and `row.Alias` with `|| ""`). -/
structure Row where
  Explain : String
  Alias : String
  Definition : String
  PM : String
  Team : String
  Contact : String
  Link : String
deriving DecidableEq, Repr

/-- A data row of the `Why` sheet: the backing store supplies `rowIndex`,
the sheet supplies the `why` column. -/
structure WhyRow where
  rowIndex : Nat
  why : String
deriving DecidableEq, Repr

/-- explain.js `sanitizeValue = (value) => value.replace(/[\r\n]/, "").trim()`.
The regex has no `g` flag, so JS `replace` removes only the FIRST `\r` or
`\n` occurrence. -/
def removeFirstLineBreak : List Char → List Char
  | [] => []
  | c :: rest => if c = '\r' ∨ c = '\n' then rest else c :: removeFirstLineBreak rest

/-- explain.js `sanitizeValue`. -/
def sanitizeValue (v : String) : String :=
  String.mk (trimChars (removeFirstLineBreak v.data))

/-- explain.js `valueIsEmpty = (value) => !value || value.toLocaleLowerCase().trim() === "n/a"`.
For a string, `!value` is true exactly for the empty string. -/
def valueIsEmpty (v : String) : Bool :=
  v == "" || jsTrim (jsToLower v) == "n/a"

/-- The conditionally pushed label/value pairs of `formatRowToMDTable`
(the four `if (!valueIsEmpty(...)) rows.push(...)` statements, in order). -/
def optionalRows (row : Row) : List (String × String) :=
  (if valueIsEmpty row.PM then [] else [("PM", row.PM)]) ++
  (if valueIsEmpty row.Team then [] else [("Team", row.Team)]) ++
  (if valueIsEmpty row.Contact then [] else [("Contact channel", row.Contact)]) ++
  (if valueIsEmpty row.Link then [] else [("Read more", row.Link)])

/-- The full `rows` array built by `formatRowToMDTable`: the unconditional
`rows.push([row.Explain, row.Definition])` followed by the optional pairs. -/
def mdRows (row : Row) : List (String × String) :=
  (row.Explain, row.Definition) :: optionalRows row

/-- JS `Array.prototype.join("\n")`. -/
def joinLines : List String → String
  | [] => ""
  | [x] => x
  | x :: y :: rest => x ++ "\n" ++ joinLines (y :: rest)

/-- One rendered table line: `| ${sanitizeValue(row[0])} | ${sanitizeValue(row[1])} |`. -/
def mdCell (p : String × String) : String :=
  "| " ++ sanitizeValue p.1 ++ " | " ++ sanitizeValue p.2 ++ " |"

/-- explain.js `formatRowToMDTable`: header `| Title | Description |`,
separator `|--|--|`, then the joined data lines. -/
def formatRowToMDTable (row : Row) : String :=
  "| Title | Description |\n|--|--|\n" ++ joinLines ((mdRows row).map mdCell)

/-- The static usage string of explain.js. -/
def usage : String :=
  "Format: `/explain <concept>` eg. `/explain MAAS`. Add your own [here](https://docs.google.com/spreadsheets/d/1nNk4typDnOfDEYRzlEjtd58zk-aOd3_NNp6eufthZHM/edit#gid=2064544629)"

/-- The comma-token list of the `Alias` field:
`alias.toLowerCase().trim().split(",").map((e) => e.trim().toLocaleLowerCase())`. -/
def aliasTokens (aliasField : String) : List String :=
  (splitComma (trimChars (lowerChars aliasField.data))).map
    (fun tk => String.mk (lowerChars (trimChars tk)))

/-- The row predicate of the `rows.find` call in `fetchExplanation`:
`explain.toLowerCase().trim() === searchQuery || alias...find((keyword) => keyword == searchQuery)`.
The second disjunct is the JS truthiness of the `Array.prototype.find`
result: `undefined` (no token equal) and the empty-string token are falsy,
any other found token is truthy. -/
def rowMatches (q : String) (r : Row) : Bool :=
  let sq := normalize q
  normalize r.Explain == sq ||
    (match (aliasTokens r.Alias).find? (fun keyword => keyword == sq) with
     | none => false
     | some keyword => keyword != "")

/-- explain.js `fetchExplanation`.  The spreadsheet backend is passed in as
the fetched row lists; the why-mode random index is the `draw` parameter.
Why-mode returns `none` when `rows.find((row) => row.rowIndex == randomRowIndex)`
finds nothing: the source then dereferences `whyRandomRow.why` on
`undefined`, an unhandled failure. -/
def fetchExplanation (whyRows : List WhyRow) (rows : List Row) (draw : Nat)
    (explainQuery : String) : Option String :=
  if normalize explainQuery = "why" then
    (whyRows.find? (fun row => row.rowIndex == draw)).map (fun row => row.why)
  else
    some
      (match rows.find? (rowMatches explainQuery) with
       | none => usage
       | some row => formatRowToMDTable row)

/-- The why-mode index draw
`parseInt(Math.floor(Math.random() * (rows.length + 1)))`, over an
abstract `Math.random()` result `r ∈ [0, 1)` and `n = rows.length`. -/
def whyDraw (r : ℚ) (n : Nat) : Nat := (Int.floor (r * (n + 1))).toNat

/-- An HTTP response of one of the webhook handlers, together with a flag
recording whether the handler invoked its backend (the spreadsheet fetch
for explain, the link generation for meet) while producing it. -/
structure HttpResponse where
  status : Nat
  text : String
  backendCalled : Bool
deriving DecidableEq, Repr

/-- Leading `(-)*` of the help regex: strip all leading hyphens. -/
def stripLeadingHyphens : List Char → List Char
  | '-' :: rest => stripLeadingHyphens rest
  | l => l

/-- The regex `/^(-)*h(elp)?$/gi` applied to an (already trimmed) string:
zero or more leading hyphens, then `h` or `help`, case-insensitively. -/
def matchesHelpRegex (s : String) : Bool :=
  let core := lowerChars (stripLeadingHyphens s.data)
  core == ['h'] || core == ['h', 'e', 'l', 'p']

/-- The help test of the explain POST handler:
`explainQuery.trim().match(/^(-)*h(elp)?$/gi)`. -/
def isHelpText (s : String) : Bool := matchesHelpRegex (jsTrim s)

/-- The `POST /hubot/explain` handler.  `secret` is
`MATTERMOST_TOKEN_CMD_EXPLAIN`, `tok`/`txt` are `req.body.token` /
`req.body.text` (an absent `text` is the empty string: both are falsy).
Token mismatch answers 401 before anything else; empty or help-matching
text answers the usage string without touching the backend; otherwise the
result of `fetchExplanation` is returned (`none` propagates why-mode's
unhandled failure). -/
def explainHandler (secret : String) (whyRows : List WhyRow) (rows : List Row)
    (draw : Nat) (tok txt : String) : Option HttpResponse :=
  if secret ≠ tok then some ⟨401, "Unauthorized", false⟩
  else if txt == "" || isHelpText txt then some ⟨200, usage, false⟩
  else (fetchExplanation whyRows rows draw txt).map (fun t => ⟨200, t, true⟩)

/-- The `code` built by `generateMeetLink`:
`participants.replace(/@/g, "").replace(/ /g, "-").slice(0, 59)`. -/
def generateMeetLinkCode (participants : String) : String :=
  String.mk
    (((participants.data.filter (fun c => c ≠ '@')).map
        (fun c => if c = ' ' then '-' else c)).take 59)

/-- The meet script's `generateMeetLink`. -/
def generateMeetLink (participants : String) : String :=
  "Your Meet is ready: https://g.co/meet/" ++ generateMeetLinkCode participants
    ++ " " ++ participants

/-- The static help string of the meet POST handler. -/
def meetUsage : String :=
  "Create a new Meet and post the link to the current channel, format: `/meet @\x7busername\x7d [@\x7busername\x7d ...]`"

/-- The `POST /hubot/meet` handler.  Token mismatch answers 401 (with
`res.end("")`, an empty body) before anything else; a non-empty text whose
trim is not `help` gets a generated link; otherwise the static help text. -/
def meetHandler (secret tok txt : String) : HttpResponse :=
  if secret ≠ tok then ⟨401, "", false⟩
  else if txt != "" && jsTrim txt != "help" then ⟨200, generateMeetLink txt, true⟩
  else ⟨200, meetUsage, false⟩

/-- What happens while a script's module is loaded at process startup. -/
structure StartupOutcome where
  loggedDiagnostic : Bool
  aborted : Bool
  handlersRegistered : Bool
deriving DecidableEq, Repr

/-- JS truthiness of the `MATTERMOST_TOKEN_CMD_MEET` environment value:
falsy when the variable is unset or empty. -/
def meetTokenPresent : Option String → Bool
  | none => false
  | some t => t != ""

/-- Startup of the meet script (src/unnamed/part_000 lines 19-22): a falsy
token only triggers `console.log("Missing MATTERMOST_TOKEN_CMD_MEET in environment")`;
the module proceeds to register its handlers unconditionally. -/
def meetStartup (token : Option String) : StartupOutcome :=
  { loggedDiagnostic := !(meetTokenPresent token)
    aborted := false
    handlersRegistered := true }

/-- Modelled from the spec: the body of `requiredEnvs` lives in
src/scripts/utils.js, which is not among the sources; per the spec,
"Missing required configuration must abort startup with a diagnostic", so
it aborts exactly when one of the passed environment values is missing. -/
def requiredEnvsAborts (envs : List (Option String)) : Bool :=
  envs.any (fun e => e.isNone)

/-- Startup of explain.js: `requiredEnvs` is called on the four required
environment values before any handler registration (`requiredEnvsAborts`
is modelled from the spec, see its comment). -/
def explainStartup (spreadsheetId clientEmail privateKey explainToken : Option String) :
    StartupOutcome :=
  if requiredEnvsAborts [spreadsheetId, clientEmail, privateKey, explainToken] then
    { loggedDiagnostic := true, aborted := true, handlersRegistered := false }
  else
    { loggedDiagnostic := false, aborted := false, handlersRegistered := true }

/-- The row-matching predicate as the C2 claim words it: normalized
`Explain` equality, or containment of the normalized query among the
normalized `Alias` tokens — with no truthiness proviso on the found token.
Stated only to compare the claim against the source's `rowMatches`. -/
def claimRowMatches (q : String) (r : Row) : Bool :=
  normalize r.Explain == normalize q || (aliasTokens r.Alias).contains (normalize q)

/-- First line of a rendered result (up to the first newline). -/
def firstLine (s : String) : String :=
  String.mk (s.data.takeWhile (fun c => c ≠ '\n'))

/-! Helper lemmas. -/

theorem find?_of_split {α : Type} (p : α → Bool) :
    ∀ (pre : List α) (R : α) (post : List α), (∀ r ∈ pre, p r = false) → p R = true →
      (pre ++ R :: post).find? p = some R
  | [], R, post, _, hR => by
    simpa using List.find?_cons_of_pos post hR
  | a :: l, R, post, hpre, hR => by
    rw [List.cons_append, List.find?_cons_of_neg _ (by simp [hpre a (by simp)])]
    exact find?_of_split p l R post (fun r hr => hpre r (by simp [hr])) hR

theorem valueIsEmpty_eq_false_iff (v : String) :
    valueIsEmpty v = false ↔ (v ≠ "" ∧ jsTrim (jsToLower v) ≠ "n/a") := by
  simp [valueIsEmpty]

theorem requiredEnvsAborts_iff (a b c d : Option String) :
    requiredEnvsAborts [a, b, c, d] = true ↔
      (a = none ∨ b = none ∨ c = none ∨ d = none) := by
  simp [requiredEnvsAborts, Option.isNone_iff_eq_none]

theorem joinLines_cons_cons (x y : String) (rest : List String) :
    joinLines (x :: y :: rest) = x ++ "\n" ++ joinLines (y :: rest) := rfl

/-! Claim theorems. -/

/-- Claim C4 (code bug): the claim — and the spec — say every cell value is
sanitized by removing all line-break characters and trimming, but the
regex `/[\r\n]/` in `sanitizeValue` has no `g` flag, so JS `replace`
removes only the first line break: on `"a\nb\nc"` the code yields
`"ab\nc"`, not the `"abc"` the claim requires. -/
theorem sanitizeValue_keeps_second_break :
    sanitizeValue "a\nb\nc" = "ab\nc" ∧ sanitizeValue "a\nb\nc" ≠ "abc" := by
  decide

/-- Claim C5: an optional field (PM, Team, Contact, Link) is pushed onto the
table rows iff its value is non-empty and its lower-cased, trimmed form is
not `"n/a"`; in particular `"N/A"`, `"n/a "` and `""` are excluded while
`"0"` is included. -/
theorem optional_fields_iff (row : Row) :
    (("PM", row.PM) ∈ optionalRows row ↔
      (row.PM ≠ "" ∧ jsTrim (jsToLower row.PM) ≠ "n/a")) ∧
    (("Team", row.Team) ∈ optionalRows row ↔
      (row.Team ≠ "" ∧ jsTrim (jsToLower row.Team) ≠ "n/a")) ∧
    (("Contact channel", row.Contact) ∈ optionalRows row ↔
      (row.Contact ≠ "" ∧ jsTrim (jsToLower row.Contact) ≠ "n/a")) ∧
    (("Read more", row.Link) ∈ optionalRows row ↔
      (row.Link ≠ "" ∧ jsTrim (jsToLower row.Link) ≠ "n/a")) ∧
    valueIsEmpty "N/A" = true ∧ valueIsEmpty "n/a " = true ∧
    valueIsEmpty "" = true ∧ valueIsEmpty "0" = false := by
  refine ⟨?_, ?_, ?_, ?_, by decide, by decide, by decide, by decide⟩ <;>
    rw [← valueIsEmpty_eq_false_iff] <;>
    cases h1 : valueIsEmpty row.PM <;> cases h2 : valueIsEmpty row.Team <;>
      cases h3 : valueIsEmpty row.Contact <;> cases h4 : valueIsEmpty row.Link <;>
        simp [optionalRows, h1, h2, h3, h4]

/-- Claim C7: on either POST handler, a request whose token differs from
the configured secret is answered with status 401, with no backend call
and no dependence on the rest of the request body. -/
theorem unauthorized_no_backend :
    (∀ (secret : String) (whyRows : List WhyRow) (rows : List Row) (draw : Nat)
        (tok txt : String), tok ≠ secret →
        explainHandler secret whyRows rows draw tok txt =
          some ⟨401, "Unauthorized", false⟩) ∧
    (∀ secret tok txt : String, tok ≠ secret →
        meetHandler secret tok txt = ⟨401, "", false⟩) := by
  constructor
  · intro secret whyRows rows draw tok txt h
    rw [explainHandler, if_pos (Ne.symm h)]
  · intro secret tok txt h
    rw [meetHandler, if_pos (Ne.symm h)]

/-- Witness for C7 at a concrete mismatched token. -/
theorem unauthorized_no_backend_witness :
    explainHandler "s" [] [] 0 "t" "x" = some ⟨401, "Unauthorized", false⟩ ∧
    meetHandler "s" "t" "x" = ⟨401, "", false⟩ :=
  ⟨unauthorized_no_backend.1 "s" [] [] 0 "t" "x" (by decide),
   unauthorized_no_backend.2 "s" "t" "x" (by decide)⟩

/-- Claim C8: `generateMeetLink s` is exactly the fixed prefix, then the
code (`s` with `@` removed, spaces hyphenated, truncated to 59 characters),
then a space and the original participants text; the code is never longer
than 59 characters and the output ends with the original text. -/
theorem generateMeetLink_spec (s : String) :
    generateMeetLink s =
      "Your Meet is ready: https://g.co/meet/" ++ generateMeetLinkCode s ++ " " ++ s ∧
    (generateMeetLinkCode s).length ≤ 59 ∧
    ∃ t, generateMeetLink s = t ++ s := by
  refine ⟨rfl, ?_,
    ⟨"Your Meet is ready: https://g.co/meet/" ++ generateMeetLinkCode s ++ " ", rfl⟩⟩
  have h : (generateMeetLinkCode s).length =
      min 59 ((s.data.filter (fun c => c ≠ '@')).map
        (fun c => if c = ' ' then '-' else c)).length := by
    simp [generateMeetLinkCode, String.length]
  rw [h]
  exact Nat.min_le_left _ _

/-- Claim C10: with a valid token, an absent/empty text or a trimmed text
matching `/^(-)*h(elp)?$/i` (zero or more hyphens then `h` or `help`,
case-insensitively) makes the explain handler answer the usage message
without a backend call; `"H"`, `"-h"`, `"--help"`, `"-hElP"` trigger it,
`"hh"` and `"helps"` do not. -/
theorem help_query_usage_no_backend :
    (∀ (secret : String) (whyRows : List WhyRow) (rows : List Row) (draw : Nat)
        (tok txt : String), secret = tok → (txt = "" ∨ isHelpText txt = true) →
        explainHandler secret whyRows rows draw tok txt = some ⟨200, usage, false⟩) ∧
    isHelpText "H" = true ∧ isHelpText "-h" = true ∧ isHelpText "--help" = true ∧
    isHelpText "-hElP" = true ∧ isHelpText "hh" = false ∧ isHelpText "helps" = false := by
  refine ⟨?_, by decide, by decide, by decide, by decide, by decide, by decide⟩
  intro secret whyRows rows draw tok txt htok h
  rw [explainHandler, if_neg (by simp [htok])]
  rcases h with h | h
  · subst h
    rfl
  · rw [if_pos (by simp [h])]

/-- Witness for C10 with a valid token and empty text. -/
theorem help_query_usage_no_backend_witness :
    explainHandler "s" [] [] 0 "s" "" = some ⟨200, usage, false⟩ :=
  help_query_usage_no_backend.1 "s" [] [] 0 "s" "" rfl (Or.inl rfl)

/-- Claim C1: in why-mode the drawn index
`Math.floor(Math.random() * (rows.length + 1))` ranges over the inclusive
interval `[0, rowCount]` — every value of it is reachable, including
`rowCount` itself — and whenever no fetched row carries the drawn
`rowIndex` the lookup produces no string (the source's unhandled
dereference, `none` here); in particular any row list whose indices miss
some value of `[0, rowCount]` has a failing draw. -/
theorem why_mode_inclusive_draw :
    (∀ (r : ℚ) (n : Nat), 0 ≤ r → r < 1 → whyDraw r n ≤ n) ∧
    (∀ n k : Nat, k ≤ n → ∃ r : ℚ, 0 ≤ r ∧ r < 1 ∧ whyDraw r n = k) ∧
    (∀ (whyRows : List WhyRow) (rows : List Row) (k : Nat), k ≤ whyRows.length →
        (∀ row ∈ whyRows, row.rowIndex ≠ k) →
        fetchExplanation whyRows rows k "why" = none) := by
  refine ⟨?_, ?_, ?_⟩
  · intro r n h0 h1
    rw [whyDraw, Int.toNat_le]
    have hlt : r * ((n : ℚ) + 1) < (n : ℚ) + 1 := by
      calc r * ((n : ℚ) + 1) < 1 * ((n : ℚ) + 1) :=
            mul_lt_mul_of_pos_right h1 (by positivity)
        _ = (n : ℚ) + 1 := one_mul _
    have hfl : (⌊r * ((n : ℚ) + 1)⌋ : ℤ) < (n : ℤ) + 1 :=
      Int.floor_lt.mpr (by push_cast; exact hlt)
    omega
  · intro n k hk
    refine ⟨(k : ℚ) / ((n : ℚ) + 1), by positivity, ?_, ?_⟩
    · rw [div_lt_one (by positivity)]
      exact_mod_cast Nat.lt_succ_of_le hk
    · rw [whyDraw, div_mul_cancel₀ _ (by positivity : ((n : ℚ) + 1) ≠ 0),
        Int.floor_natCast, Int.toNat_natCast]
  · intro whyRows rows k _ hnone
    rw [fetchExplanation, if_pos (show normalize "why" = "why" by decide),
      List.find?_eq_none.mpr (fun row hrow => by simpa using hnone row hrow)]
    rfl

/-- Witness for C1: one row carrying `rowIndex` 1, draw 0 in `[0, 1]`,
lookup fails. -/
theorem why_mode_inclusive_draw_witness :
    fetchExplanation [⟨1, "because"⟩] [] 0 "why" = none :=
  why_mode_inclusive_draw.2.2 [⟨1, "because"⟩] [] 0 (by decide) (by decide)

/-- Claim C6: a query hitting one of row `R`'s comma-separated alias tokens
yields the same result as querying `R`'s `Explain` field, provided `R` is
the first row the search finds for either query (and neither query is the
why-mode keyword). -/
theorem alias_query_same_as_explain_query
    (whyRows : List WhyRow) (rows : List Row) (draw : Nat) (R : Row) (q : String)
    (hwq : normalize q ≠ "why") (hwE : normalize R.Explain ≠ "why")
    (_htok : normalize q ∈ aliasTokens R.Alias)
    (hq : rows.find? (rowMatches q) = some R)
    (hE : rows.find? (rowMatches R.Explain) = some R) :
    fetchExplanation whyRows rows draw q =
      fetchExplanation whyRows rows draw R.Explain := by
  rw [fetchExplanation, fetchExplanation, if_neg hwq, if_neg hwE, hq, hE]

/-- Witness for C6: alias token `ms` of a `MAAS` row. -/
theorem alias_query_same_as_explain_query_witness :
    fetchExplanation [] [⟨"MAAS", "ms", "d", "", "", "", ""⟩] 0 "ms" =
      fetchExplanation [] [⟨"MAAS", "ms", "d", "", "", "", ""⟩] 0 "MAAS" :=
  alias_query_same_as_explain_query [] [⟨"MAAS", "ms", "d", "", "", "", ""⟩] 0
    ⟨"MAAS", "ms", "d", "", "", "", ""⟩ "ms"
    (by decide) (by decide) (by decide) (by decide) (by decide)

set_option maxRecDepth 4096 in
/-- Counterexample to claim C2 as stated: for the query `""` and a row
whose `Alias` field is `""`, the claim's predicate matches (the token list
of `""` is `[""]`, which contains the normalized query), yet the source
returns the usage string, because the JS expression
`...find((keyword) => keyword == searchQuery)` evaluates to the found
empty-string token, which is falsy. -/
theorem empty_alias_token_counterexample :
    claimRowMatches "" ⟨"x", "", "d", "", "", "", ""⟩ = true ∧
    rowMatches "" ⟨"x", "", "d", "", "", "", ""⟩ = false ∧
    fetchExplanation [] [⟨"x", "", "d", "", "", "", ""⟩] 0 "" = some usage ∧
    usage ≠ formatRowToMDTable ⟨"x", "", "d", "", "", "", ""⟩ := by
  decide

/-- Claim C2 as amended: for a non-why query, `fetchExplanation` returns
the usage string when no row satisfies the source's match predicate
(normalized `Explain` equality, or a non-empty alias token equal to the
normalized query), and otherwise the formatting of the first row, in
fetched order, that satisfies it. -/
theorem fetch_explanation_first_match
    (whyRows : List WhyRow) (rows : List Row) (draw : Nat) (q : String)
    (hwq : normalize q ≠ "why") :
    ((∀ r ∈ rows, rowMatches q r = false) →
        fetchExplanation whyRows rows draw q = some usage) ∧
    (∀ (pre : List Row) (R : Row) (post : List Row), rows = pre ++ R :: post →
        (∀ r ∈ pre, rowMatches q r = false) → rowMatches q R = true →
        fetchExplanation whyRows rows draw q = some (formatRowToMDTable R)) := by
  constructor
  · intro hall
    rw [fetchExplanation, if_neg hwq,
      List.find?_eq_none.mpr (fun r hr => by simp [hall r hr])]
  · intro pre R post hsplit hpre hR
    rw [fetchExplanation, if_neg hwq, hsplit, find?_of_split _ pre R post hpre hR]

/-- Witness for the amended C2: a one-row list matched by its `Explain`
field. -/
theorem fetch_explanation_first_match_witness :
    fetchExplanation [] [⟨"MAAS", "", "a tool", "", "", "", ""⟩] 0 "maas" =
      some (formatRowToMDTable ⟨"MAAS", "", "a tool", "", "", "", ""⟩) :=
  (fetch_explanation_first_match [] [⟨"MAAS", "", "a tool", "", "", "", ""⟩] 0 "maas"
      (by decide)).2
    [] ⟨"MAAS", "", "a tool", "", "", "", ""⟩ [] rfl (by simp) (by decide)

/-- Counterexample to claim C3 as stated: on a matched row the rendered
table's first line is `| Title | Description |`, not the
`| Explain | Definition |` header the claim requires. -/
theorem table_header_counterexample :
    fetchExplanation [] [⟨"LXD", "", "containers", "", "", "", ""⟩] 0 "lxd" =
      some (formatRowToMDTable ⟨"LXD", "", "containers", "", "", "", ""⟩) ∧
    firstLine (formatRowToMDTable ⟨"LXD", "", "containers", "", "", "", ""⟩) =
      "| Title | Description |" ∧
    "| Title | Description |" ≠ "| Explain | Definition |" := by
  decide

/-- Claim C3 as amended: for a query matching a row's `Explain` field
(case/whitespace-insensitively, the row being the one the search finds),
the result is a markdown table opening with the `| Title | Description |`
header line and the `|--|--|` separator line, followed by the matched
row's sanitized `Explain` and `Definition` values as the first data row. -/
theorem explain_match_table_layout
    (whyRows : List WhyRow) (rows : List Row) (draw : Nat) (q : String) (R : Row)
    (hwq : normalize q ≠ "why") (_hexp : normalize R.Explain = normalize q)
    (hfind : rows.find? (rowMatches q) = some R) :
    ∃ rest, fetchExplanation whyRows rows draw q =
      some ("| Title | Description |\n|--|--|\n" ++
        ("| " ++ sanitizeValue R.Explain ++ " | " ++ sanitizeValue R.Definition ++ " |")
        ++ rest) := by
  have hfetch : fetchExplanation whyRows rows draw q = some (formatRowToMDTable R) := by
    rw [fetchExplanation, if_neg hwq, hfind]
  rcases h : optionalRows R with _ | ⟨a, l⟩
  · refine ⟨"", ?_⟩
    rw [hfetch, formatRowToMDTable, mdRows, h, String.append_empty]
    rfl
  · refine ⟨"\n" ++ joinLines (mdCell a :: l.map mdCell), ?_⟩
    rw [hfetch, formatRowToMDTable, mdRows, h, List.map_cons, List.map_cons,
      joinLines_cons_cons, String.append_assoc, ← String.append_assoc]
    rfl

/-- Witness for the amended C3 at a concrete matched row. -/
theorem explain_match_table_layout_witness :
    ∃ rest, fetchExplanation [] [⟨"LXD", "", "containers", "", "", "", ""⟩] 0 "lxd" =
      some ("| Title | Description |\n|--|--|\n" ++
        ("| " ++ sanitizeValue "LXD" ++ " | " ++ sanitizeValue "containers" ++ " |")
        ++ rest) :=
  explain_match_table_layout [] [⟨"LXD", "", "containers", "", "", "", ""⟩] 0 "lxd"
    ⟨"LXD", "", "containers", "", "", "", ""⟩ (by decide) (by decide) (by decide)

/-- Counterexample to claim C9 as stated: with the meet token missing, the
meet script's startup logs its diagnostic but does not abort — handler
registration still happens (src/unnamed/part_000 only runs `console.log`
in the guard). -/
theorem meet_missing_token_counterexample :
    meetTokenPresent none = false ∧
    (meetStartup none).loggedDiagnostic = true ∧
    (meetStartup none).aborted = false ∧
    (meetStartup none).handlersRegistered = true := by
  decide

/-- Claim C9 as amended: startup of explain.js aborts (skipping handler
registration) exactly when one of its four required environment values is
missing — per the spec-modelled `requiredEnvs` — while the meet script
never aborts on a missing token: it logs a diagnostic exactly when the
token is absent or empty and registers its handlers regardless. -/
theorem startup_diagnostics :
    (∀ a b c d : Option String,
        ((explainStartup a b c d).aborted = true ∧
         (explainStartup a b c d).handlersRegistered = false) ↔
        (a = none ∨ b = none ∨ c = none ∨ d = none)) ∧
    (∀ t : Option String,
        (meetStartup t).aborted = false ∧ (meetStartup t).handlersRegistered = true ∧
        ((meetStartup t).loggedDiagnostic = true ↔ meetTokenPresent t = false)) := by
  constructor
  · intro a b c d
    cases hA : requiredEnvsAborts [a, b, c, d] with
    | false =>
      rw [explainStartup, if_neg (by simp [hA])]
      exact iff_of_false (by simp)
        (fun hcon => by simp [(requiredEnvsAborts_iff a b c d).mpr hcon] at hA)
    | true =>
      rw [explainStartup, if_pos hA]
      simp [(requiredEnvsAborts_iff a b c d).mp hA]
  · intro t
    refine ⟨rfl, rfl, ?_⟩
    cases t with
    | none => simp [meetStartup, meetTokenPresent]
    | some v => simp [meetStartup, meetTokenPresent]

end WebteamHubot
